import Mathlib

/-!
Shallow embedding of the multi-language compile-and-run core of
`compiler_server.py` (puski2003/android-text-editor), together with proofs
settling the frozen claims about its specification.

The embedding is pure: every interaction with the operating system (spawning
a subprocess, creating the scratch workspace, writing the source file) is
parameterised by an explicit behaviour (`ProcResult`, `World`) and recorded in
an explicit event trace, so that properties such as "the run step is never
attempted after a failed build" or "no workspace is created" become statements
about the returned trace.  Paths are modelled with POSIX separators.
-/

/-! ## String helpers (Python string operations, char-level for computability) -/

/-- Substring test: does the character list `pat` occur contiguously in the
second list?  Models the Python `in` operator on strings. -/
def charsContains (pat : List Char) : List Char → Bool
  | [] => pat.isEmpty
  | c :: t => pat.isPrefixOf (c :: t) || charsContains pat t

/-- Python `str.lower()`, as a character list (ASCII behaviour). -/
def pyLower (s : String) : List Char := s.data.map Char.toLower

/-- Python `str.strip()`: remove leading and trailing whitespace. -/
def pyStrip (s : String) : String :=
  String.mk (((s.data.dropWhile Char.isWhitespace).reverse.dropWhile
    Char.isWhitespace).reverse)

/-- Python `str(bool)`: capitalised `True` / `False`. -/
def pyBool : Bool → String
  | true => "True"
  | false => "False"

/-- `os.path.join(dir, name)` for two components, POSIX semantics: an absolute
second component discards the first, otherwise the parts are glued with `/`. -/
def joinPath (dir name : String) : String :=
  if name.data.head? = some '/' then name
  else if dir = "" then name
  else if dir.data.getLast? = some '/' then dir ++ name
  else dir ++ "/" ++ name

/-- Split a character list on a separator character (like `str.split(sep)`). -/
def splitOnChar (sep : Char) : List Char → List (List Char)
  | [] => [[]]
  | c :: t =>
    let rest := splitOnChar sep t
    if c = sep then [] :: rest
    else
      match rest with
      | [] => [[c]]
      | h :: rs => (c :: h) :: rs

/-- `os.path.basename` (POSIX): the part after the last `/`. -/
def basename (p : String) : String :=
  String.mk ((splitOnChar '/' p.data).getLastD [])

/-- The root part of `os.path.splitext` (POSIX), applied to a basename (the
only way the source uses it): drop the suffix that starts at the last dot,
unless every character before that dot is itself a dot. -/
def splitext_root (name : String) : String :=
  let rev := name.data.reverse
  if rev.contains '.' then
    let extRev := rev.takeWhile (fun c => c ≠ '.')
    let stem := (rev.drop (extRev.length + 1)).reverse
    if stem.any (fun c => c ≠ '.') then String.mk stem else name
  else name

/-- Lexical POSIX resolution of a path into its directory components:
split on `/`, discard empty and `.` components, and let `..` remove the
preceding component.  Used to state where a written file actually lands. -/
def resolvedComponents (p : String) : List String :=
  (((splitOnChar '/' p.data).map (fun cs => String.mk cs)).filter
      (fun s => s != "" && s != ".")).foldl
    (fun acc c => if c = ".." then acc.dropLast else acc ++ [c]) []

/-- A path lies inside a directory when the directory's resolved components
form a prefix of the path's resolved components. -/
def isWithin (dir path : String) : Bool :=
  (resolvedComponents dir).isPrefixOf (resolvedComponents path)

/-! ## Process runner (`execute_command`, lines 191-212) -/

/-- The behaviour of one `subprocess.run` invocation, as observed by the
caller: normal completion with captured streams and exit code, or one of the
three exception classes the source catches (`TimeoutExpired`,
`FileNotFoundError`, any other `Exception` with its message). -/
inductive ProcResult where
  | completed (stdout stderr : String) (returncode : Int)
  | timedOut
  | fileNotFound (msg : String)
  | otherError (msg : String)
deriving DecidableEq

/-- `execute_command(cmd, cwd, timeout)` (lines 191-212): returns
`(stdout, stderr, returncode)`; every exception is folded into the tuple. -/
def execute_command (cmd : List String) (res : ProcResult) :
    String × String × Int :=
  match res with
  | .completed stdout stderr returncode => (stdout, stderr, returncode)
  | .timedOut => ("", "Execution timed out", 1)
  | .fileNotFound e => ("", "Command not found: " ++ cmd.headD "" ++ " - " ++ e, 1)
  | .otherError e => ("", "Execution error: " ++ e, 1)

/-! ## Toolchain probe (`check_command_exists`, lines 53-119) -/

/-- The `version_flags` lookup table (lines 64-75), with the `['--version']`
default of `.get` (line 77). -/
def version_flags (command : String) : List String :=
  if command = "kotlinc" then ["-version"]
  else if command = "kotlinc.bat" then ["-version"]
  else if command = "kotlin" then ["-version"]
  else if command = "javac" then ["-version"]
  else if command = "java" then ["-version"]
  else if command = "python" then ["--version"]
  else if command = "node" then ["--version"]
  else if command = "gcc" then ["--version"]
  else if command = "g++" then ["--version"]
  else if command = "go" then ["version"]
  else ["--version"]

/-- Candidate executables for a logical tool name (lines 57-59): on Windows,
`kotlinc` is tried as `kotlinc.bat` first. -/
def commands_to_try (cmd : String) (isWindows : Bool) : List String :=
  if isWindows ∧ cmd = "kotlinc" then ["kotlinc.bat", "kotlinc"] else [cmd]

/-- The candidate loop of `check_command_exists` (lines 61-115).  `env` gives
the behaviour of invoking one candidate with its version flag.  For the
`kotlinc` family success is exit code zero or a case-insensitive `kotlin`
occurrence in either stream (line 98); for every other candidate, exit code
zero (line 102).  Exceptions move on to the next candidate (lines 105-113). -/
def try_candidates (env : List String → ProcResult) : List String → Bool
  | [] => false
  | command :: rest =>
    match env (command :: version_flags command) with
    | .completed stdout stderr returncode =>
      if command = "kotlinc" ∨ command = "kotlinc.bat" then
        if returncode == 0 || charsContains "kotlin".data (pyLower stderr)
            || charsContains "kotlin".data (pyLower stdout) then
          true
        else try_candidates env rest
      else if returncode == 0 then true
      else try_candidates env rest
    | _ => try_candidates env rest

/-- `check_command_exists(cmd)` (lines 53-119). -/
def check_command_exists (cmd : String) (isWindows : Bool)
    (env : List String → ProcResult) : Bool :=
  try_candidates env (commands_to_try cmd isWindows)

/-! ## Language profile registry (lines 45-51 and 121-189) -/

/-- `LanguageConfig` (lines 45-51). -/
structure LanguageConfig where
  extension : String
  compile_command : Option (String → String → List String)
  run_command : String → String → List String
  default_filename : String

/-- `kotlin_compile_cmd` of the source (lines 121-126). -/
def kotlin_compile_command (isWindows : Bool) (file_path temp_dir : String) :
    List String :=
  let jar_path := joinPath temp_dir "program.jar"
  let kotlinc_cmd := if isWindows then "kotlinc.bat" else "kotlinc"
  [kotlinc_cmd, file_path, "-include-runtime", "-d", jar_path]

/-- `kotlin_run_cmd` of the source (lines 128-131); its `file_path` argument
is unused there too. -/
def kotlin_run_command (_file_path temp_dir : String) : List String :=
  let jar_path := joinPath temp_dir "program.jar"
  ["java", "-jar", jar_path]

/-- `kotlin_interpret_cmd` (lines 133-136). -/
def kotlin_interpret_cmd (isWindows : Bool) (file_path _temp_dir : String) :
    List String :=
  let kotlin_cmd := if isWindows then "kotlin.bat" else "kotlin"
  [kotlin_cmd, "-script", file_path]

/-- `LANGUAGE_CONFIGS` (lines 139-189), as an association list preserving the
source's insertion order. -/
def LANGUAGE_CONFIGS (isWindows : Bool) : List (String × LanguageConfig) :=
  [("python",
    { extension := ".py"
      compile_command := none
      run_command := fun file_path _temp_dir => ["python", file_path]
      default_filename := "main.py" }),
   ("java",
    { extension := ".java"
      compile_command := some (fun file_path _temp_dir => ["javac", file_path])
      run_command := fun file_path temp_dir =>
        ["java", "-cp", temp_dir, splitext_root (basename file_path)]
      default_filename := "Main.java" }),
   ("kotlin",
    { extension := ".kt"
      compile_command := some (kotlin_compile_command isWindows)
      run_command := kotlin_run_command
      default_filename := "Main.kt" }),
   ("c",
    { extension := ".c"
      compile_command := some (fun file_path temp_dir =>
        ["gcc", file_path, "-o", joinPath temp_dir "program.exe"])
      run_command := fun _file_path temp_dir => [joinPath temp_dir "program.exe"]
      default_filename := "main.c" }),
   ("cpp",
    { extension := ".cpp"
      compile_command := some (fun file_path temp_dir =>
        ["g++", file_path, "-o", joinPath temp_dir "program.exe"])
      run_command := fun _file_path temp_dir => [joinPath temp_dir "program.exe"]
      default_filename := "main.cpp" }),
   ("javascript",
    { extension := ".js"
      compile_command := none
      run_command := fun file_path _temp_dir => ["node", file_path]
      default_filename := "main.js" }),
   ("go",
    { extension := ".go"
      compile_command := none
      run_command := fun file_path _temp_dir => ["go", "run", file_path]
      default_filename := "main.go" })]

/-- Replacing the profile stored under a key: the effect, on the shared dict,
of the in-place attribute assignment at lines 237-238. -/
def registry_update (reg : List (String × LanguageConfig)) (key : String)
    (v : LanguageConfig) : List (String × LanguageConfig) :=
  reg.map (fun kv => if kv.1 = key then (key, v) else kv)

/-! ## Requests, responses, and the observable world -/

/-- `CompileRequest` (lines 33-37). -/
structure CompileRequest where
  code : String
  language : String
  fileName : Option String := none
deriving DecidableEq

/-- `CompileResponse` (lines 39-43). -/
structure CompileResponse where
  success : Bool
  output : String
  errors : List String
deriving DecidableEq

/-- Observable side effects of one request, in order: creating the scratch
workspace, writing the source file, and each subprocess invocation (build or
run command). -/
inductive Event where
  | createWorkspace (dir : String)
  | writeFile (path : String)
  | exec (cmd : List String)
deriving DecidableEq

/-- The environment one request runs against: the behaviour of probe
invocations (keyed by the full probe argument vector), the name the OS gives
the scratch directory, whether writing the source file raises (and with what
message), the behaviour of the build subprocess and of the run subprocess,
and the three filesystem facts the Kotlin diagnostic bundle reports. -/
structure World where
  probeEnv : List String → ProcResult
  tempDir : String
  writeError : Option String
  buildRes : ProcResult
  runRes : ProcResult
  kotlinBinPathExists : Bool
  kotlincBatExists : Bool
  pathHasKotlinBin : Bool

/-! ## Execution orchestrator (`compile_and_run_code`, lines 214-322) -/

/-- Output assembly and the final response (lines 297-322): the list
`output_parts` is grown exactly as the source's four `if` statements do,
the single run-failure error is appended when the exit code is non-zero and
stderr non-empty (lines 313-314), and `success` is
`returncode == 0 and not errors` (line 319). -/
def assemble_result (compile_output stdout stderr : String)
    (returncode : Int) : CompileResponse :=
  let output_parts : List String := []
  let output_parts :=
    if compile_output ≠ "" then output_parts ++ ["Compilation successful"]
    else output_parts
  let output_parts :=
    if stdout ≠ "" then
      output_parts ++ ["--- Execution Output ---", pyStrip stdout]
    else output_parts
  let output_parts :=
    if stderr ≠ "" then
      output_parts ++ ["--- Execution Error ---", pyStrip stderr]
    else output_parts
  let output_parts :=
    if stdout = "" ∧ stderr = "" then output_parts ++ ["--- No Output ---"]
    else output_parts
  let errors : List String :=
    if returncode ≠ 0 ∧ stderr ≠ "" then
      ["Execution failed with exit code: " ++ toString returncode]
    else []
  let final_output :=
    if output_parts ≠ [] then String.intercalate "\n" output_parts
    else compile_output
  { success := (returncode == 0) && errors.isEmpty
    output := final_output
    errors := errors }

/-- The build-then-run tail of the pipeline (lines 277-322): run the optional
compilation step, terminate on a non-zero build exit (lines 285-290), else
run the run command and assemble the response.  Returns the response together
with the subprocess invocations actually performed, in order. -/
def do_build_run (config : LanguageConfig) (file_path temp_dir : String)
    (buildRes runRes : ProcResult) : CompileResponse × List Event :=
  match config.compile_command with
  | some gen =>
    let compile_cmdv := gen file_path temp_dir
    let bres := execute_command compile_cmdv buildRes
    let compile_output := bres.1 ++ bres.2.1
    if bres.2.2 ≠ 0 then
      ({ success := false
         output := compile_output
         errors := ["Compilation failed with exit code: " ++ toString bres.2.2] },
       [Event.exec compile_cmdv])
    else
      let run_cmdv := config.run_command file_path temp_dir
      let rres := execute_command run_cmdv runRes
      (assemble_result compile_output rres.1 rres.2.1 rres.2.2,
       [Event.exec compile_cmdv, Event.exec run_cmdv])
  | none =>
    let run_cmdv := config.run_command file_path temp_dir
    let rres := execute_command run_cmdv runRes
    (assemble_result "" rres.1 rres.2.1 rres.2.2, [Event.exec run_cmdv])

/-- Filename choice, workspace creation, source write, and the build/run tail
(lines 253-322).  `registry` is returned unchanged: this part of the source
does not touch the shared configuration. -/
def run_request (w : World) (registry : List (String × LanguageConfig))
    (config : LanguageConfig) (compile_request : CompileRequest) :
    CompileResponse × List (String × LanguageConfig) × List Event :=
  let filename :=
    match compile_request.fileName with
    | some f => if f ≠ "" then f else config.default_filename
    | none => config.default_filename
  let temp_dir := w.tempDir
  let file_path := joinPath temp_dir filename
  match w.writeError with
  | some e =>
    ({ success := false
       output := ""
       errors := ["Failed to write code to file: " ++ e] },
     registry, [Event.createWorkspace temp_dir])
  | none =>
    let tail := do_build_run config file_path temp_dir w.buildRes w.runRes
    (tail.1, registry,
     Event.createWorkspace temp_dir :: Event.writeFile file_path :: tail.2)

/-- `compile_and_run_code` (lines 214-322).  The registry is threaded
explicitly because the source's Kotlin fallback assigns to the attributes of
the shared `LANGUAGE_CONFIGS['kotlin']` object (lines 237-238): the updated
registry is what any later request started after this one observes. -/
def compile_and_run_code (isWindows : Bool) (w : World)
    (registry : List (String × LanguageConfig))
    (compile_request : CompileRequest) :
    CompileResponse × List (String × LanguageConfig) × List Event :=
  match registry.lookup compile_request.language with
  | none =>
    ({ success := false
       output := ""
       errors := ["Unsupported language: " ++ compile_request.language] },
     registry, [])
  | some config =>
    if compile_request.language = "kotlin" then
      let kotlinc_available := check_command_exists "kotlinc" isWindows w.probeEnv
      let kotlin_available := check_command_exists "kotlin" isWindows w.probeEnv
      if !kotlinc_available then
        if kotlin_available then
          let config :=
            { config with
                compile_command := none
                run_command := kotlin_interpret_cmd isWindows }
          run_request w (registry_update registry "kotlin" config) config
            compile_request
        else
          ({ success := false
             output := ""
             errors :=
               ["Kotlin compiler not found. Troubleshooting info:",
                "Kotlin bin path exists: " ++ pyBool w.kotlinBinPathExists,
                "kotlinc.bat exists: " ++ pyBool w.kotlincBatExists,
                "Current PATH contains kotlinc: " ++ pyBool w.pathHasKotlinBin,
                "Try running kotlinc.bat -version manually in terminal to test"] },
           registry, [])
      else run_request w registry config compile_request
    else run_request w registry config compile_request

/-! ## Capability reporter (`get_supported_languages`, lines 402-418) -/

/-- The language list of the `/languages` endpoint (lines 405-411): every
registered language is appended in registry order, except that `kotlin` is
appended only when one of its two probes succeeds. -/
def get_supported_languages (isWindows : Bool)
    (env : List String → ProcResult) : List String :=
  (LANGUAGE_CONFIGS isWindows).foldl
    (fun languages kv =>
      if kv.1 = "kotlin" then
        if check_command_exists "kotlinc" isWindows env
            || check_command_exists "kotlin" isWindows env then
          languages ++ [kv.1]
        else languages
      else languages ++ [kv.1])
    []

/-! ## Spec-side probe success criterion (for the refinement claim C6) -/

/-- Success of a single probe candidate, written from the claim's words: for
the `kotlinc` tool family, exit code zero or a case-insensitive occurrence of
`kotlin` in either stdout or stderr; for every other tool, exit code zero
exactly; executable-not-found, timeout, and other launch failures are
failures, not propagated errors. -/
def candidateSucceeds (command : String)
    (env : List String → ProcResult) : Bool :=
  match env (command :: version_flags command) with
  | .completed stdout stderr returncode =>
    if command = "kotlinc" ∨ command = "kotlinc.bat" then
      returncode == 0 || charsContains "kotlin".data (pyLower stdout)
        || charsContains "kotlin".data (pyLower stderr)
    else returncode == 0
  | _ => false

/-! ## Helper lemmas -/

/-- The `success` flag of the assembled result depends only on the run exit
code: the single run-failure error can only appear when the exit code is
non-zero, so `returncode == 0 and not errors` collapses to the exit code
test. -/
theorem assemble_result_success (co out err : String) (rc : Int) :
    (assemble_result co out err rc).success = (rc == 0) := by
  by_cases hrc : rc = 0
  · subst hrc; simp [assemble_result]
  · have hb : (rc == 0) = false := beq_eq_false_iff_ne.mpr hrc
    by_cases he : err = "" <;> simp [assemble_result, hrc, he, hb]

/-- A successful assembled result carries no errors. -/
theorem assemble_result_errors_of_success (co out err : String) (rc : Int)
    (h : (assemble_result co out err rc).success = true) :
    (assemble_result co out err rc).errors = [] := by
  have hs := assemble_result_success co out err rc
  rw [h] at hs
  have hrc : rc = 0 := beq_iff_eq.mp hs.symm
  subst hrc
  simp [assemble_result]

/-! ## C1 -/

/-- Environment for the C1 counterexample: the run subprocess completes with
exit code zero but non-empty stderr. -/
def wRunStderr : World :=
  { probeEnv := fun _ => ProcResult.fileNotFound "nf"
    tempDir := "/tmp/ws"
    writeError := none
    buildRes := ProcResult.completed "" "" 0
    runRes := ProcResult.completed "ok" "warning: deprecated" 0
    kotlinBinPathExists := false
    kotlincBatExists := false
    pathHasKotlinBin := false }

/-- C1 is false as stated: a python request whose run step exits with code
zero but writes `warning: deprecated` to stderr still yields `success = true`,
contradicting "success is true iff the exit code is zero and stderr is
empty". -/
theorem C1_counterexample :
    (compile_and_run_code false wRunStderr (LANGUAGE_CONFIGS false)
      { code := "print(1)", language := "python" }).1.success = true
    ∧ (execute_command ["python", "/tmp/ws/main.py"] wRunStderr.runRes).2.1 ≠ "" := by
  decide

/-- C1 (amended): for every request that reaches the run step (the build
step, when present, exited with code zero), the result's `success` field is
true if and only if the run step's exit code is zero; the run step's stderr
does not influence `success`. -/
theorem C1_amended_success_iff_zero_exit (config : LanguageConfig)
    (file_path temp_dir : String) (buildRes runRes : ProcResult)
    (h : ∀ g, config.compile_command = some g →
      (execute_command (g file_path temp_dir) buildRes).2.2 = 0) :
    (do_build_run config file_path temp_dir buildRes runRes).1.success =
      ((execute_command (config.run_command file_path temp_dir) runRes).2.2 == 0) := by
  rcases hc : config.compile_command with _ | g
  · simp [do_build_run, hc, assemble_result_success]
  · have hb := h g hc
    simp [do_build_run, hc, hb, assemble_result_success]

/-- Witness for C1 (amended) at a concrete interpreted-language profile and a
run outcome with exit code 3. -/
theorem C1_amended_success_witness :
    (do_build_run
      { extension := ".py"
        compile_command := none
        run_command := fun file_path _temp_dir => ["python", file_path]
        default_filename := "main.py" }
      "/w/main.py" "/w" (ProcResult.completed "" "" 0)
      (ProcResult.completed "out" "err" 3)).1.success =
      ((execute_command ["python", "/w/main.py"]
        (ProcResult.completed "out" "err" 3)).2.2 == 0) :=
  C1_amended_success_iff_zero_exit _ "/w/main.py" "/w" _ _
    (fun _g hg => Option.noConfusion hg)

/-! ## C3 -/

/-- C3: the process runner is a total function folding every failure mode
into the outcome.  A timeout yields empty stdout, the sentinel message and a
non-zero code; a missing executable yields a descriptive stderr naming the
executable and a non-zero code; any other launch failure yields a generic
explanatory stderr and a non-zero code. -/
theorem C3_process_runner_folds_failures (cmd : List String) (res : ProcResult) :
    (res = ProcResult.timedOut →
      (execute_command cmd res).1 = "" ∧
      (execute_command cmd res).2.1 = "Execution timed out" ∧
      (execute_command cmd res).2.2 ≠ 0) ∧
    (∀ e, res = ProcResult.fileNotFound e →
      (execute_command cmd res).1 = "" ∧
      (execute_command cmd res).2.1 =
        "Command not found: " ++ cmd.headD "" ++ " - " ++ e ∧
      (execute_command cmd res).2.2 ≠ 0) ∧
    (∀ e, res = ProcResult.otherError e →
      (execute_command cmd res).1 = "" ∧
      (execute_command cmd res).2.1 = "Execution error: " ++ e ∧
      (execute_command cmd res).2.2 ≠ 0) := by
  refine ⟨fun h => ?_, fun e h => ?_, fun e h => ?_⟩ <;>
    subst h <;> simp [execute_command]

/-- Witness for C3 at a concrete command and the timeout outcome. -/
theorem C3_process_runner_witness :
    (execute_command ["python", "main.py"] ProcResult.timedOut).1 = "" ∧
    (execute_command ["python", "main.py"] ProcResult.timedOut).2.1 =
      "Execution timed out" ∧
    (execute_command ["python", "main.py"] ProcResult.timedOut).2.2 ≠ 0 :=
  (C3_process_runner_folds_failures ["python", "main.py"] ProcResult.timedOut).1 rfl

/-! ## C4 -/

/-- C4: when the profile has a build step and the build exits non-zero, the
pipeline terminates with `success = false`, output equal to the build's
stdout concatenated with its stderr, exactly one error naming the build
failure and its exit code — and the only subprocess ever invoked is the build
command, whatever the run subprocess would have done. -/
theorem C4_build_failure_terminates_pipeline (config : LanguageConfig)
    (file_path temp_dir : String) (buildRes runRes : ProcResult)
    (g : String → String → List String)
    (hc : config.compile_command = some g)
    (hrc : (execute_command (g file_path temp_dir) buildRes).2.2 ≠ 0) :
    do_build_run config file_path temp_dir buildRes runRes =
      ({ success := false
         output := (execute_command (g file_path temp_dir) buildRes).1 ++
           (execute_command (g file_path temp_dir) buildRes).2.1
         errors := ["Compilation failed with exit code: " ++
           toString (execute_command (g file_path temp_dir) buildRes).2.2] },
       [Event.exec (g file_path temp_dir)]) := by
  simp [do_build_run, hc, hrc]

/-- Witness for C4: a java-profile build failing with exit code 2; the run
outcome is never consulted and the trace holds only the build command. -/
theorem C4_build_failure_witness :
    do_build_run
      { extension := ".java"
        compile_command := some (fun file_path _temp_dir => ["javac", file_path])
        run_command := fun file_path temp_dir =>
          ["java", "-cp", temp_dir, splitext_root (basename file_path)]
        default_filename := "Main.java" }
      "/w/Main.java" "/w" (ProcResult.completed "diag" "err: bad" 2)
      (ProcResult.completed "should never run" "" 0) =
      ({ success := false
         output := "diagerr: bad"
         errors := ["Compilation failed with exit code: 2"] },
       [Event.exec ["javac", "/w/Main.java"]]) :=
  C4_build_failure_terminates_pipeline _ "/w/Main.java" "/w"
    (ProcResult.completed "diag" "err: bad" 2)
    (ProcResult.completed "should never run" "" 0)
    (fun file_path _temp_dir => ["javac", file_path]) rfl (by decide)

/-! ## C5 -/

/-- A quiescent environment used by concrete witnesses. -/
def wDefault : World :=
  { probeEnv := fun _ => ProcResult.fileNotFound "nf"
    tempDir := "/tmp/ws"
    writeError := none
    buildRes := ProcResult.completed "" "" 0
    runRes := ProcResult.completed "" "" 0
    kotlinBinPathExists := false
    kotlincBatExists := false
    pathHasKotlinBin := false }

/-- C5: an unregistered language identifier yields `success = false` with the
single error string `Unsupported language: ` followed literally by the
identifier, the registry is untouched, and the event trace is empty — in
particular no workspace is ever created. -/
theorem C5_unsupported_language_no_workspace (isWindows : Bool) (w : World)
    (req : CompileRequest)
    (h : (LANGUAGE_CONFIGS isWindows).lookup req.language = none) :
    compile_and_run_code isWindows w (LANGUAGE_CONFIGS isWindows) req =
      ({ success := false
         output := ""
         errors := ["Unsupported language: " ++ req.language] },
       LANGUAGE_CONFIGS isWindows, []) := by
  simp [compile_and_run_code, h]

/-- Witness for C5 at the unregistered identifier `ruby`. -/
theorem C5_unsupported_language_witness :
    (LANGUAGE_CONFIGS false).lookup "ruby" = none ∧
    compile_and_run_code false wDefault (LANGUAGE_CONFIGS false)
      { code := "puts 1", language := "ruby" } =
      ({ success := false
         output := ""
         errors := ["Unsupported language: ruby"] },
       LANGUAGE_CONFIGS false, []) :=
  ⟨rfl, C5_unsupported_language_no_workspace false wDefault _ rfl⟩

/-! ## C6 -/

/-- The candidate loop returns true exactly when some candidate satisfies the
claim's per-candidate success criterion. -/
theorem try_candidates_eq_any (env : List String → ProcResult)
    (l : List String) :
    try_candidates env l = l.any (fun c => candidateSucceeds c env) := by
  induction l with
  | nil => rfl
  | cons c rest ih =>
    rw [List.any_cons, ← ih]
    simp only [try_candidates, candidateSucceeds]
    cases henv : env (c :: version_flags c) with
    | completed out err rc =>
      by_cases hk : c = "kotlinc" ∨ c = "kotlinc.bat"
      · simp only [if_pos hk]
        cases h1 : (rc == 0) <;>
          cases h2 : charsContains "kotlin".data (pyLower err) <;>
            cases h3 : charsContains "kotlin".data (pyLower out) <;>
              simp [h1, h2, h3]
      · simp only [if_neg hk]
        cases h1 : (rc == 0) <;> simp [h1]
    | timedOut => simp
    | fileNotFound m => simp
    | otherError m => simp

/-- C6: the probe equals "some candidate succeeds" under the claim's success
criterion (exit code zero, or for the `kotlinc` family also a
case-insensitive `kotlin` occurrence in stdout or stderr; not-found, timeout
and other launch failures count as candidate failures).  Consequently it
returns false exactly when every candidate was tried and failed. -/
theorem C6_probe_success_criterion (cmd : String) (isWindows : Bool)
    (env : List String → ProcResult) :
    check_command_exists cmd isWindows env =
      (commands_to_try cmd isWindows).any (fun c => candidateSucceeds c env)
    ∧ (check_command_exists cmd isWindows env = false ↔
        ∀ c ∈ commands_to_try cmd isWindows, candidateSucceeds c env = false) := by
  have h := try_candidates_eq_any env (commands_to_try cmd isWindows)
  refine ⟨h, ?_⟩
  rw [check_command_exists, h]
  constructor
  · intro hf c hc
    by_contra hne
    have : candidateSucceeds c env = true := by
      cases hcc : candidateSucceeds c env
      · exact absurd hcc hne
      · rfl
    have : (commands_to_try cmd isWindows).any
        (fun x => candidateSucceeds x env) = true :=
      List.any_eq_true.mpr ⟨c, hc, this⟩
    rw [this] at hf
    exact Bool.noConfusion hf
  · intro hall
    cases hv : (commands_to_try cmd isWindows).any
        (fun x => candidateSucceeds x env)
    · rfl
    · rcases List.any_eq_true.mp hv with ⟨c, hc, hcs⟩
      rw [hall c hc] at hcs
      exact absurd hcs (by decide)

/-! ## C7 -/

/-- Environment for the C7 counterexample: the build subprocess succeeds
silently (exit 0, both streams empty) and the run subprocess prints `hi`. -/
def wSilentBuild : World :=
  { probeEnv := fun _ => ProcResult.fileNotFound "nf"
    tempDir := "/tmp/ws"
    writeError := none
    buildRes := ProcResult.completed "" "" 0
    runRes := ProcResult.completed "hi\n" "" 0
    kotlinBinPathExists := false
    kotlincBatExists := false
    pathHasKotlinBin := false }

/-- C7 is false as stated: for a java request the build step runs (its
command is in the trace) and succeeds, yet because it produced no output the
assembled result contains no `Compilation successful` marker anywhere. -/
theorem C7_counterexample :
    Event.exec ["javac", "/tmp/ws/Main.java"] ∈
      (compile_and_run_code false wSilentBuild (LANGUAGE_CONFIGS false)
        { code := "class Main", language := "java" }).2.2
    ∧ (compile_and_run_code false wSilentBuild (LANGUAGE_CONFIGS false)
        { code := "class Main", language := "java" }).1.output =
      "--- Execution Output ---\nhi"
    ∧ charsContains "Compilation successful".data
        (compile_and_run_code false wSilentBuild (LANGUAGE_CONFIGS false)
          { code := "class Main", language := "java" }).1.output.data = false := by
  decide

/-- C7 (amended): the assembled output is the newline-join of, in order: the
`Compilation successful` marker when the build's combined stdout+stderr is
non-empty (not merely when a build occurred), the labeled stdout section when
the run's stdout is non-empty, the labeled stderr section when the run's
stderr is non-empty, and the explicit no-output note when both streams are
empty. -/
theorem C7_amended_output_assembly (co out err : String) (rc : Int) :
    (assemble_result co out err rc).output =
      String.intercalate "\n"
        ((if co ≠ "" then ["Compilation successful"] else [])
          ++ (if out ≠ "" then ["--- Execution Output ---", pyStrip out] else [])
          ++ (if err ≠ "" then ["--- Execution Error ---", pyStrip err] else [])
          ++ (if out = "" ∧ err = "" then ["--- No Output ---"] else [])) := by
  by_cases hco : co = "" <;> by_cases hout : out = "" <;>
    by_cases herr : err = "" <;> simp [assemble_result, hco, hout, herr]

/-! ## C2 -/

/-- Environment for C2: the `kotlinc` probe fails (executable not found) but
the `kotlin` script-runner probe succeeds. -/
def wKotlinScriptOnly : World :=
  { probeEnv := fun argv =>
      if argv.headD "" = "kotlin" then
        ProcResult.completed "Kotlin version 1.9.0" "" 0
      else ProcResult.fileNotFound "No such file or directory"
    tempDir := "/tmp/ws1"
    writeError := none
    buildRes := ProcResult.completed "" "" 0
    runRes := ProcResult.completed "hello" "" 0
    kotlinBinPathExists := false
    kotlincBatExists := false
    pathHasKotlinBin := false }

/-- Environment for the second request of C2: now every probe succeeds (the
full compiler is back), and a fresh workspace is used. -/
def wKotlincBack : World :=
  { probeEnv := fun _ => ProcResult.completed "info: kotlinc present" "" 0
    tempDir := "/tmp/ws2"
    writeError := none
    buildRes := ProcResult.completed "" "" 0
    runRes := ProcResult.completed "hello" "" 0
    kotlinBinPathExists := true
    kotlincBatExists := true
    pathHasKotlinBin := true }

/-- The shared registry as a later request sees it, after one Kotlin request
took the script-runner fallback. -/
def registryAfterFallback : List (String × LanguageConfig) :=
  (compile_and_run_code false wKotlinScriptOnly (LANGUAGE_CONFIGS false)
    { code := "fun main() = println(1)", language := "kotlin" }).2.1

/-- C2 fails on the code: the fallback substitution is written through to the
shared registry entry.  Before the request, the Kotlin profile has a build
step and its run generator produces the `java -jar` invocation; after the
request completes, the shared entry has no build step and its run generator
produces the script invocation.  A second request, served while the full
compiler probe succeeds, still executes the leaked script-runner command. -/
theorem C2_fallback_mutates_shared_registry :
    ((LANGUAGE_CONFIGS false).lookup "kotlin").map
        (fun c => c.compile_command.isSome) = some true
    ∧ ((LANGUAGE_CONFIGS false).lookup "kotlin").map
        (fun c => c.run_command "/d/Main.kt" "/d") =
      some ["java", "-jar", "/d/program.jar"]
    ∧ (registryAfterFallback.lookup "kotlin").map
        (fun c => c.compile_command.isSome) = some false
    ∧ (registryAfterFallback.lookup "kotlin").map
        (fun c => c.run_command "/d/Main.kt" "/d") =
      some ["kotlin", "-script", "/d/Main.kt"]
    ∧ Event.exec ["kotlin", "-script", "/tmp/ws2/Main.kt"] ∈
        (compile_and_run_code false wKotlincBack registryAfterFallback
          { code := "fun main() = println(1)", language := "kotlin" }).2.2 := by
  refine ⟨rfl, rfl, rfl, rfl, ?_⟩
  decide

/-! ## C10 -/

/-- Environment for C10: an ordinary python request whose workspace is the
scratch directory `/tmp/tmpabc123`. -/
def wEscape : World :=
  { probeEnv := fun _ => ProcResult.fileNotFound "nf"
    tempDir := "/tmp/tmpabc123"
    writeError := none
    buildRes := ProcResult.completed "" "" 0
    runRes := ProcResult.completed "" "" 0
    kotlinBinPathExists := false
    kotlincBatExists := false
    pathHasKotlinBin := false }

/-- C10: the `fileName` override is joined to the workspace path verbatim,
so the request with `fileName = "../escape.py"` writes to
`/tmp/tmpabc123/../escape.py`, which resolves to `/tmp/escape.py` — outside
the workspace directory, hence not deleted with it. -/
theorem C10_fileName_escapes_workspace :
    Event.writeFile (joinPath "/tmp/tmpabc123" "../escape.py") ∈
      (compile_and_run_code false wEscape (LANGUAGE_CONFIGS false)
        { code := "print(1)", language := "python",
          fileName := some "../escape.py" }).2.2
    ∧ joinPath "/tmp/tmpabc123" "../escape.py" = "/tmp/tmpabc123/../escape.py"
    ∧ resolvedComponents "/tmp/tmpabc123/../escape.py" = ["tmp", "escape.py"]
    ∧ resolvedComponents "/tmp/tmpabc123" = ["tmp", "tmpabc123"]
    ∧ isWithin "/tmp/tmpabc123" "/tmp/tmpabc123/../escape.py" = false := by
  decide

/-! ## C8 -/

/-- The capability listing, computed: the full registry order with `kotlin`
present exactly when one of its two probes succeeds. -/
theorem get_supported_languages_eq (isWindows : Bool)
    (env : List String → ProcResult) :
    get_supported_languages isWindows env =
      if check_command_exists "kotlinc" isWindows env
          || check_command_exists "kotlin" isWindows env then
        ["python", "java", "kotlin", "c", "cpp", "javascript", "go"]
      else ["python", "java", "c", "cpp", "javascript", "go"] := by
  unfold get_supported_languages
  cases hk : (check_command_exists "kotlinc" isWindows env
      || check_command_exists "kotlin" isWindows env) <;> rfl

/-- C8: the listing always contains every registered language other than
`kotlin`, and contains `kotlin` exactly when the full-compiler probe or the
script-runner probe succeeds at listing time. -/
theorem C8_capability_listing (isWindows : Bool)
    (env : List String → ProcResult) :
    (∀ lang ∈ (LANGUAGE_CONFIGS isWindows).map Prod.fst, lang ≠ "kotlin" →
        lang ∈ get_supported_languages isWindows env)
    ∧ ("kotlin" ∈ get_supported_languages isWindows env ↔
        (check_command_exists "kotlinc" isWindows env = true ∨
         check_command_exists "kotlin" isWindows env = true)) := by
  rw [get_supported_languages_eq]
  have hkeys : (LANGUAGE_CONFIGS isWindows).map Prod.fst =
      ["python", "java", "kotlin", "c", "cpp", "javascript", "go"] := rfl
  constructor
  · intro lang hl hne
    rw [hkeys] at hl
    cases hk : (check_command_exists "kotlinc" isWindows env
        || check_command_exists "kotlin" isWindows env) <;>
      simp only [if_pos, if_neg, Bool.false_eq_true, not_false_eq_true,
        if_true, if_false] <;>
      simp only [List.mem_cons, List.mem_singleton, List.not_mem_nil] at hl <;>
      rcases hl with h | h | h | h | h | h | h <;> simp_all
  · cases hk : (check_command_exists "kotlinc" isWindows env
        || check_command_exists "kotlin" isWindows env)
    · rw [Bool.or_eq_false_iff] at hk
      simp [hk.1, hk.2]
    · rw [Bool.or_eq_true] at hk
      simp [hk]

/-- Witness for C8: with every probe failing, `python` is listed and `kotlin`
is not. -/
theorem C8_capability_listing_witness :
    "python" ∈ get_supported_languages false (fun _ => ProcResult.fileNotFound "nf")
    ∧ "kotlin" ∉ get_supported_languages false (fun _ => ProcResult.fileNotFound "nf") := by
  constructor
  · exact (C8_capability_listing false (fun _ => ProcResult.fileNotFound "nf")).1
      "python" (by decide) (by decide)
  · intro h
    rcases (C8_capability_listing false
        (fun _ => ProcResult.fileNotFound "nf")).2.mp h with h1 | h1 <;>
      exact absurd h1 (by decide)

/-! ## C9 -/

/-- A successful build-and-run tail carries no errors. -/
theorem do_build_run_errors_of_success (config : LanguageConfig)
    (file_path temp_dir : String) (buildRes runRes : ProcResult)
    (h : (do_build_run config file_path temp_dir buildRes runRes).1.success = true) :
    (do_build_run config file_path temp_dir buildRes runRes).1.errors = [] := by
  rcases hc : config.compile_command with _ | g
  · simp only [do_build_run, hc] at h ⊢
    exact assemble_result_errors_of_success _ _ _ _ h
  · simp only [do_build_run, hc] at h ⊢
    split_ifs at h ⊢ with hrc
    exact assemble_result_errors_of_success _ _ _ _ h

/-- A successful `run_request` carries no errors. -/
theorem run_request_errors_of_success (w : World)
    (registry : List (String × LanguageConfig)) (config : LanguageConfig)
    (req : CompileRequest)
    (h : (run_request w registry config req).1.success = true) :
    (run_request w registry config req).1.errors = [] := by
  simp only [run_request] at h ⊢
  cases hw : w.writeError with
  | some e =>
    simp only [hw] at h
    simp at h
  | none =>
    simp only [hw] at h ⊢
    exact do_build_run_errors_of_success _ _ _ _ _ h

/-- C9: every response with `success = true` has an empty error list (so any
response with errors has `success = false`), whatever the environment, the
registry state, and the request. -/
theorem C9_success_implies_no_errors (isWindows : Bool) (w : World)
    (registry : List (String × LanguageConfig)) (req : CompileRequest)
    (h : (compile_and_run_code isWindows w registry req).1.success = true) :
    (compile_and_run_code isWindows w registry req).1.errors = [] := by
  simp only [compile_and_run_code] at h ⊢
  cases hl : registry.lookup req.language with
  | none =>
    simp only [hl] at h
    simp at h
  | some config =>
    simp only [hl] at h ⊢
    by_cases hlang : req.language = "kotlin"
    · rw [if_pos hlang] at h ⊢
      cases hkc : check_command_exists "kotlinc" isWindows w.probeEnv with
      | true =>
        simp [hkc] at h ⊢
        exact run_request_errors_of_success _ _ _ _ h
      | false =>
        simp only [hkc, Bool.not_false, if_true] at h ⊢
        cases hka : check_command_exists "kotlin" isWindows w.probeEnv with
        | true =>
          simp [hka] at h ⊢
          exact run_request_errors_of_success _ _ _ _ h
        | false =>
          simp [hka] at h
    · rw [if_neg hlang] at h ⊢
      exact run_request_errors_of_success _ _ _ _ h

/-- Witness for C9: a concrete successful python request has no errors. -/
theorem C9_success_witness :
    (compile_and_run_code false wDefault (LANGUAGE_CONFIGS false)
      { code := "print(1)", language := "python" }).1.success = true
    ∧ (compile_and_run_code false wDefault (LANGUAGE_CONFIGS false)
      { code := "print(1)", language := "python" }).1.errors = [] :=
  ⟨by decide,
   C9_success_implies_no_errors false wDefault (LANGUAGE_CONFIGS false)
     { code := "print(1)", language := "python" } (by decide)⟩
